import Mathlib

/-!
Verification of the geospatial matching and route-optimization core of the
Aaharnet backend (backend/routes/volunteer_routes.py and
backend/routes/geo_routes.py).

Numbers that Python represents as floats are modelled over a linear ordered
field: the pure routing/scoring pipeline is stated generically (instantiated
at the rationals for concrete evaluations), while the Haversine geodesy
primitive, which uses transcendental functions, is modelled over the reals.
-/

namespace Aaharnet

/-- Python `x or default` applied to an optional numeric value: `None` and
`0` are falsy, any other number is returned unchanged.  Used for
`locations[from_node - 1].capacity or 100` in the demand callback. -/
def pyOrNum {α : Type*} [LinearOrderedField α] (o : Option α) (d : α) : α :=
  match o with
  | none => d
  | some c => if c = 0 then d else c

/-- Python `round` ties-to-even on an exact value. -/
def roundHalfEven {α : Type*} [LinearOrderedField α] [FloorRing α] (x : α) : ℤ :=
  if x - ⌊x⌋ < 1 / 2 then ⌊x⌋
  else if 1 / 2 < x - ⌊x⌋ then ⌊x⌋ + 1
  else if Even ⌊x⌋ then ⌊x⌋ else ⌊x⌋ + 1

/-- Python `round(x, 2)` (two decimal places, ties to even). -/
def round2 {α : Type*} [LinearOrderedField α] [FloorRing α] (x : α) : α :=
  (roundHalfEven (x * 100) : α) / 100

/-- Python `f"{z:02d}"`: zero-pad a nonnegative single-digit integer. -/
def pad2 (z : ℤ) : String :=
  if 0 ≤ z ∧ z < 10 then "0" ++ toString z else toString z

/-- Whether the character list starts with the given needle. -/
def listStartsWith : List Char → List Char → Bool
  | [], _ => true
  | _ :: _, [] => false
  | a :: as, b :: bs => a == b && listStartsWith as bs

/-- Whether the needle occurs contiguously inside the haystack. -/
def listHasSub (needle : List Char) : List Char → Bool
  | [] => needle.isEmpty
  | c :: t => listStartsWith needle (c :: t) || listHasSub needle t

/-- Whether a string mentions the fallback strategy by name.  The response
schema of the optimize endpoint has no structured strategy field, so an
indication of the degraded fallback strategy could only live in the
code-generated text of the payload. -/
def mentionsFallback (s : String) : Bool :=
  listHasSub "fallback".toList s.toList

section Routing

variable {α : Type*} [LinearOrderedField α] [FloorRing α]

/-- Pydantic model `Location` (volunteer_routes.py lines 36-45). -/
structure Location (α : Type*) where
  id : String
  name : String
  latitude : α
  longitude : α
  location_type : String
  capacity : Option α
  priority : ℤ
  time_window_start : Option String
  time_window_end : Option String
  deriving DecidableEq

/-- Default used when indexing lists of locations defensively; Python would
raise on an out-of-range index, which never happens on the paths modelled. -/
def dummyLocation (α : Type*) [LinearOrderedField α] : Location α :=
  ⟨"", "", 0, 0, "", none, 1, none, none⟩

/-- Pydantic model `RouteOptimizationRequest` (lines 47-53). -/
structure RouteOptimizationRequest (α : Type*) where
  volunteer_id : String
  start_location : Location α
  locations : List (Location α)
  max_route_time_hours : α
  vehicle_capacity : α
  optimization_type : String

/-- One entry of the optimized route (dict built at lines 390-400). -/
structure RouteStopEntry (α : Type*) where
  sequence : ℕ
  location_id : String
  location_name : String
  location_type : String
  latitude : α
  longitude : α
  arrival_time : String
  priority : ℤ
  capacity : Option α
  deriving DecidableEq

/-- One entry of an alternative route (dict built at lines 527-543). -/
structure AltRouteStop (α : Type*) where
  location_id : String
  location_name : String
  location_type : String
  latitude : α
  longitude : α
  deriving DecidableEq

/-- One alternative route (dicts built at lines 505-518). -/
structure AlternativeRoute (α : Type*) where
  name : String
  route : List (AltRouteStop α)
  description : String
  deriving DecidableEq

/-- Pydantic model `RouteOptimizationResponse` (lines 55-62). -/
structure RouteOptimizationResponse (α : Type*) where
  optimized_route : List (RouteStopEntry α)
  total_distance_km : α
  total_time_hours : α
  total_cost : α
  route_efficiency : α
  recommendations : List String
  alternative_routes : List (AlternativeRoute α)

/-- The dict returned by `solve_routing_problem` when the OR-Tools call
succeeds (lines 329-334): it carries the solver handles and the objective
value, and in particular has no `locations` and no `route` key. -/
structure PrimarySolution (α : Type*) where
  objective_value : α

/-- Result of `solve_routing_problem`: either the OR-Tools dict or the
mock (greedy fallback) dict of lines 360-363, which has a `route` key. -/
inductive RoutingSolution (α : Type*) where
  | primary (sol : PrimarySolution α)
  | mock (route : List ℕ) (objective_value : α)

/-- Python `min(unvisited, key=f)`: the first element attaining the minimal
key (line 352).  Returns `none` on an empty list. -/
def argminFirst (f : ℕ → α) : List ℕ → Option ℕ
  | [] => none
  | x :: xs =>
    match argminFirst f xs with
    | none => some x
    | some b => if f b < f x then some b else some x

/-- The greedy nearest-neighbour loop of `create_mock_solution`
(lines 349-355): repeatedly append the nearest unvisited index.  The fuel
argument is the length of `unvisited`, matching the `while unvisited` loop
which removes one element per iteration. -/
def greedyVisit (matrix : List (List α)) : ℕ → ℕ → List ℕ → List ℕ
  | 0, _, _ => []
  | fuel + 1, current, unvisited =>
    match argminFirst (fun x => (matrix.getD current []).getD x 0) unvisited with
    | none => []
    | some nearest => nearest :: greedyVisit matrix fuel nearest (unvisited.erase nearest)

/-- Sum of the leg distances along a route given by matrix indices
(line 362: the objective of the mock solution). -/
def routeLegSum (matrix : List (List α)) (route : List ℕ) : α :=
  ((List.range (route.length - 1)).map
    (fun i => (matrix.getD (route.getD i 0) []).getD (route.getD (i + 1) 0) 0)).sum

/-- `create_mock_solution` (lines 343-363): greedy nearest-neighbour route
starting and ending at index 0. -/
def create_mock_solution (locations : List (Location α)) (_start : Location α)
    (matrix : List (List α)) : RoutingSolution α :=
  let unvisited := List.range' 1 locations.length
  let visits := greedyVisit matrix unvisited.length 0 unvisited
  let route := 0 :: visits ++ [0]
  RoutingSolution.mock route (routeLegSum matrix route)

/-- `solution.get('locations', [])` inside `extract_route_from_solution`
(line 407): the dict built for a primary solution has no such key, so the
lookup always yields the empty list. -/
def primarySolutionLocations (_sol : PrimarySolution α) : List (Location α) := []

/-- `extract_route_from_solution` (lines 404-407). -/
def extract_route_from_solution (sol : PrimarySolution α) : List ℕ :=
  List.range ((primarySolutionLocations sol).length + 1)

/-- The route indices used by `generate_optimized_route` (lines 374-379):
the `route` key if the solution is the mock one, otherwise the result of
`extract_route_from_solution`. -/
def routeIndicesOf (sol : RoutingSolution α) : List ℕ :=
  match sol with
  | RoutingSolution.mock r _ => r
  | RoutingSolution.primary p => extract_route_from_solution p

/-- Whether a solution came from the greedy fallback (the mock-solution
dict) rather than from the OR-Tools solver. -/
def isFallbackSolution (sol : RoutingSolution α) : Bool :=
  match sol with
  | RoutingSolution.mock _ _ => true
  | RoutingSolution.primary _ => false

/-- The cumulative minutes computed by `calculate_arrival_time`
(lines 414-419): for `i in range(index)`, guarded by
`i < len(route) - 1`, add `distance_matrix[i][i+1] * 2` (with the matrix
row guard of line 418).  Note that this walks consecutive matrix indices,
not the legs of the route being built. -/
def arrivalMinutes (routeLen index : ℕ) (matrix : List (List α)) : α :=
  ((List.range index).map (fun i =>
    if i + 1 < routeLen then
      (if i + 1 < matrix.length then (matrix.getD i []).getD (i + 1) 0 else 0) * 2
    else 0)).sum

/-- Render `f"{arrival_hour:02d}:{arrival_minute:02d}"` (line 426) from the
cumulative minutes.  On the integer minute totals arising in the modelled
paths this matches Python exactly (Python would in fact raise a ValueError
formatting a non-integral float with `:02d`; we render the floored value). -/
def timeString (tm : α) : String :=
  pad2 (9 + ⌊tm / 60⌋) ++ ":" ++ pad2 (⌊tm⌋ - 60 * ⌊tm / 60⌋)

/-- `calculate_arrival_time` (lines 409-426).  The `route` argument is the
route list built so far; it is only ever used through its length. -/
def calculate_arrival_time (route : List (RouteStopEntry α)) (index : ℕ)
    (matrix : List (List α)) : String :=
  if index = 0 then "09:00"
  else timeString (arrivalMinutes route.length index matrix)

/-- The loop body of `generate_optimized_route` (lines 383-400): walk the
route indices with the enumerate counter `i`, skip indices out of range of
`all_locations`, and compute each arrival time from the route built
so far. -/
def generateRouteGo (all : List (Location α)) (matrix : List (List α)) :
    List ℕ → ℕ → List (RouteStopEntry α) → List (RouteStopEntry α)
  | [], _, acc => acc
  | idx :: rest, i, acc =>
    if idx < all.length then
      let loc := all.getD idx (dummyLocation α)
      let entry : RouteStopEntry α :=
        ⟨i, loc.id, loc.name, loc.location_type, loc.latitude, loc.longitude,
          calculate_arrival_time acc i matrix, loc.priority, loc.capacity⟩
      generateRouteGo all matrix rest (i + 1) (acc ++ [entry])
    else
      generateRouteGo all matrix rest (i + 1) acc

/-- `generate_optimized_route` (lines 365-402). -/
def generate_optimized_route (sol : RoutingSolution α) (locations : List (Location α))
    (start : Location α) (matrix : List (List α)) : List (RouteStopEntry α) :=
  generateRouteGo (start :: locations) matrix (routeIndicesOf sol) 0 []

/-- `calculate_total_distance` (lines 428-438): note it sums consecutive
matrix indices `matrix[i][i+1]`, not the legs of the given route. -/
def calculate_total_distance (route : List (RouteStopEntry α))
    (matrix : List (List α)) : α :=
  ((List.range (route.length - 1)).map (fun i =>
    if i + 1 < matrix.length then (matrix.getD i []).getD (i + 1) 0 else 0)).sum

/-- `calculate_total_time` (lines 440-444): assumed speed 30 km/h. -/
def calculate_total_time (route : List (RouteStopEntry α))
    (matrix : List (List α)) : α :=
  calculate_total_distance route matrix / 30

/-- `calculate_total_cost` (lines 446-453). -/
def calculate_total_cost (_route : List (RouteStopEntry α)) (distance time : α) : α :=
  distance * 0.1 + time * 15 + distance * 0.05

/-- `calculate_route_efficiency` (lines 455-463). -/
def calculate_route_efficiency (route : List (RouteStopEntry α))
    (distance time : α) : α :=
  let priority_score := (((route.map (fun l => l.priority)).sum : ℤ) : α) / (route.length : α)
  let distance_efficiency := max 0 (100 - distance * 2)
  let time_efficiency := max 0 (100 - time * 10)
  min 100 (max 0 (priority_score * 20 + distance_efficiency * 0.4 + time_efficiency * 0.4))

/-- The parametrized recommendation string of line 490. -/
def highPriorityRecommendation (n : ℕ) : String :=
  "Route includes " ++ Nat.repr n ++ " high-priority locations"

/-- `generate_route_recommendations` (lines 465-492). -/
def generate_route_recommendations (route : List (RouteStopEntry α))
    (distance time efficiency : α) : List String :=
  (if 80 < efficiency then ["Excellent route efficiency!"]
   else if 60 < efficiency then ["Good route efficiency"]
   else ["Consider route optimization for better efficiency"]) ++
  (if 50 < distance then ["Long route detected - consider splitting into multiple trips"] else []) ++
  (if 6 < time then ["Long route time - ensure volunteer availability"] else []) ++
  (let high_priority_locations := route.filter (fun l => 4 ≤ l.priority)
   if high_priority_locations.length ≠ 0 then
     [highPriorityRecommendation high_priority_locations.length]
   else [])

/-- `generate_route_for_locations` (lines 522-545); the distance-matrix
parameter of the source is unused there as well. -/
def generate_route_for_locations (locations : List (Location α)) (start : Location α)
    (_matrix : List (List α)) : List (AltRouteStop α) :=
  ⟨start.id, start.name, start.location_type, start.latitude, start.longitude⟩ ::
    locations.map (fun l => ⟨l.id, l.name, l.location_type, l.latitude, l.longitude⟩)

/-- First index of an element in a list of locations
(Python `locations.index(x)` at line 512). -/
def locationIndex (locations : List (Location α)) (x : Location α) : ℕ :=
  locations.findIdx (fun y => y = x)

/-- `generate_alternative_routes` (lines 494-520).  Python `sorted` is a
stable sort, hence equal to insertion sort with the corresponding total
preorder (with `reverse=True` rendered by flipping the key comparison,
which preserves the original order of equal keys exactly as Python does). -/
def generate_alternative_routes (locations : List (Location α)) (start : Location α)
    (matrix : List (List α)) : List (AlternativeRoute α) :=
  let priority_sorted := locations.insertionSort (fun a b => b.priority ≤ a.priority)
  let distance_sorted := locations.insertionSort (fun a b =>
    (matrix.getD 0 []).getD (locationIndex locations a + 1) 0 ≤
      (matrix.getD 0 []).getD (locationIndex locations b + 1) 0)
  [⟨"Priority-based Route", generate_route_for_locations priority_sorted start matrix,
      "Route optimized by location priority"⟩,
   ⟨"Shortest Distance Route", generate_route_for_locations distance_sorted start matrix,
      "Route optimized by shortest total distance"⟩]

/-- The response assembly of `optimize_volunteer_route` after the solver
has run (lines 134-173): route, metrics, recommendations, alternatives. -/
def optimize_route_response (sol : RoutingSolution α) (locations : List (Location α))
    (start : Location α) (matrix : List (List α)) : RouteOptimizationResponse α :=
  let optimized_route := generate_optimized_route sol locations start matrix
  let total_distance := calculate_total_distance optimized_route matrix
  let total_time := calculate_total_time optimized_route matrix
  let total_cost := calculate_total_cost optimized_route total_distance total_time
  let route_efficiency := calculate_route_efficiency optimized_route total_distance total_time
  { optimized_route := optimized_route
    total_distance_km := round2 total_distance
    total_time_hours := round2 total_time
    total_cost := round2 total_cost
    route_efficiency := round2 route_efficiency
    recommendations := generate_route_recommendations optimized_route total_distance
      total_time route_efficiency
    alternative_routes := generate_alternative_routes locations start matrix }

/-- `solve_routing_problem` (lines 280-341).  The outcome of the OR-Tools
call (lines 291-326) is modelled by `primaryResult`: `some obj` when the
library is importable and `SolveWithParameters` returns a solution with
objective `obj`; `none` when the import failed, an exception was raised, or
no solution was found - in which case control falls to the greedy mock
solution, exactly once. -/
def solve_routing_problem (matrix : List (List α)) (locations : List (Location α))
    (start : Location α) (_max_time_hours _vehicle_capacity : α)
    (_optimization_type : String) (primaryResult : Option α) : RoutingSolution α :=
  match primaryResult with
  | some obj => RoutingSolution.primary ⟨obj⟩
  | none => create_mock_solution locations start matrix

/-- The demand callback registered with the capacity dimension
(lines 304-308): demand 0 at the start node, otherwise
`locations[from_node - 1].capacity or 100`. -/
def demandOf (locations : List (Location α)) (n : ℕ) : α :=
  if n = 0 then 0 else pyOrNum (locations.getD (n - 1) (dummyLocation α)).capacity 100

/-- The capacity invariant: the cumulative demand over every prefix of the
route never exceeds the vehicle capacity. -/
def capacityInvariant (route : List ℕ) (demand : ℕ → α) (cap : α) : Prop :=
  ∀ k, ((route.take k).map demand).sum ≤ cap

/-- A route is a valid round trip over `n` stops: it starts and ends at the
start index 0 and visits each of the indices `1..n` exactly once in
between. -/
def isPermRoute (r : List ℕ) (n : ℕ) : Prop :=
  r.head? = some 0 ∧ r.getLast? = some 0 ∧ ((r.drop 1).dropLast).Perm (List.range' 1 n)

/-- The code-generated text channels of an optimize response: the
recommendations and the names and descriptions of the alternative routes.
Every other string in the payload echoes caller-supplied data (ids, names,
coordinates) or is a clock time. -/
def responseGeneratedStrings (r : RouteOptimizationResponse α) : List String :=
  r.recommendations ++ r.alternative_routes.map (fun a => a.name) ++
    r.alternative_routes.map (fun a => a.description)

end Routing

section Matching

variable {α : Type*} [LinearOrderedField α] [FloorRing α]

/-- A candidate user record as fetched from the user directory
(geo_routes.py): `uid`, `name` and `role` are accessed directly, while
`location` and `capacity` are read with guards or defaults. -/
structure Ngo (α : Type*) where
  uid : String
  name : String
  role : String
  location : Option (α × α)
  capacity : Option α
  deriving DecidableEq

/-- Pydantic model `MatchingRequest` (geo_routes.py lines 38-43). -/
structure MatchingRequest (α : Type*) where
  donor_location : α × α
  ngo_location : α × α
  food_type : String
  quantity : α
  urgency : String

/-- One ranked match (dict built at geo_routes.py lines 207-215); the
`capacity` field defaults to the string `unknown` in the source, rendered
here as `none`. -/
structure MatchEntry (α : Type*) where
  ngo_id : String
  ngo_name : String
  location : α × α
  distance_km : α
  match_score : α
  estimated_delivery_time : String
  capacity : Option α
  deriving DecidableEq

/-- Pydantic model `MatchingResponse` (geo_routes.py lines 45-49); the
distance matrix is the nested string-keyed dict of
`generate_distance_matrix`, rendered as an association list. -/
structure MatchingResponse (α : Type*) where
  «matches» : List (MatchEntry α)
  optimal_match : Option (MatchEntry α)
  distance_matrix : List (String × List (String × α))
  recommendations : List String

/-- The urgency multiplier lookup `urgency_multipliers.get(urgency, 1.0)`
(geo_routes.py lines 358-364). -/
def urgencyMultiplier (urgency : String) : α :=
  match urgency with
  | "low" => 0.8
  | "normal" => 1.0
  | "high" => 1.2
  | "urgent" => 1.5
  | _ => 1.0

/-- `calculate_match_score` (geo_routes.py lines 348-369). -/
def calculate_match_score (distance quantity : α) (urgency : String) (ngo : Ngo α) : α :=
  let distance_score := max 0 (100 - distance * 2)
  let capacity := ngo.capacity.getD 100
  let quantity_score := min 100 (quantity / capacity * 100)
  let match_score := (distance_score * 0.4 + quantity_score * 0.6) * urgencyMultiplier urgency
  min 100 match_score

/-- `estimate_delivery_time` (geo_routes.py lines 371-380). -/
def estimate_delivery_time (distance_km : α) : String :=
  if distance_km < 5 then "15-30 minutes"
  else if distance_km < 15 then "30-60 minutes"
  else if distance_km < 30 then "1-2 hours"
  else "2+ hours"

/-- `generate_matching_recommendations` (geo_routes.py lines 399-425). -/
def generate_matching_recommendations («matches» : List (MatchEntry α))
    (request : MatchingRequest α) : List String :=
  match «matches» with
  | [] => ["No nearby NGOs found. Consider expanding search radius."]
  | best_match :: _ =>
    (if 80 < best_match.match_score then
        ["Excellent match found: " ++ best_match.ngo_name, "Proceed with donation immediately"]
      else if 60 < best_match.match_score then
        ["Good match found: " ++ best_match.ngo_name, "Consider this NGO for donation"]
      else ["Consider expanding search radius for better matches"]) ++
    (if 20 < best_match.distance_km then ["Consider volunteer delivery for long distances"] else []) ++
    (if request.urgency = "urgent" then
        ["URGENT: Contact NGO immediately", "Consider multiple NGOs for urgent requests"]
      else [])

end Matching

section Assignment

variable {α : Type*} [LinearOrderedField α]

/-- A volunteer record (plain dict in `VolunteerAssignmentRequest`):
`id` and `name` are accessed directly, everything else through `.get`
with a default. -/
structure Volunteer (α : Type*) where
  id : String
  name : String
  latitude : Option α
  longitude : Option α
  skills : Option (List String)
  available : Option Bool
  deriving DecidableEq

/-- A task record (plain dict in `VolunteerAssignmentRequest`):
`id` and `name` are accessed directly, everything else through `.get`
with a default. -/
structure Task (α : Type*) where
  id : String
  name : String
  latitude : Option α
  longitude : Option α
  required_skills : Option (List String)
  scheduled_time : Option String
  estimated_time : Option String
  deriving DecidableEq

/-- Default used when indexing task lists defensively; the greedy solver
only ever selects in-range indices. -/
def dummyTask (α : Type*) : Task α :=
  ⟨"", "", none, none, none, none, none⟩

/-- One assignment (dict built at volunteer_routes.py lines 613-620). -/
structure Assignment (α : Type*) where
  volunteer_id : String
  volunteer_name : String
  task_id : String
  task_name : String
  assignment_score : α
  estimated_time : String
  deriving DecidableEq

/-- `calculate_skill_match` (volunteer_routes.py lines 572-581), with the
locals `volunteer_skills` and `task_skills` inlined: if no skills are
required the match is 100, otherwise the fraction of required skills the
volunteer has, times 100. -/
def calculate_skill_match (volunteer : Volunteer α) (task : Task α) : α :=
  if task.required_skills.getD [] = [] then 100
  else (((task.required_skills.getD []).filter
      (fun s => (volunteer.skills.getD []).contains s)).length : α) /
    ((task.required_skills.getD []).length : α) * 100

/-- `calculate_availability_match` (volunteer_routes.py lines 583-589):
the mock check only reads `volunteer.get('available', True)`. -/
def calculate_availability_match (volunteer : Volunteer α) (_task : Task α) : α :=
  if volunteer.available.getD true then 100 else 0

/-- The score blend of `create_assignment_matrix`
(volunteer_routes.py line 565), as a function of the computed distance. -/
def assignment_score (volunteer : Volunteer α) (task : Task α) (distance : α) : α :=
  calculate_skill_match volunteer task * 0.4 +
    calculate_availability_match volunteer task * 0.3 + (100 - distance) * 0.3

/-- The inner loop of `solve_assignment_problem`
(volunteer_routes.py lines 603-609): scan the task indices in order,
keeping the first strict improvement over the running best score, which
starts at -1; indices already used are skipped.  Returns the selected
index (if any) together with the final best score. -/
def pickBestTask (row : List α) (tasksLen : ℕ) (used : List ℕ) : Option ℕ × α :=
  (List.range tasksLen).foldl
    (fun acc j => if j ∉ used ∧ acc.2 < row.getD j 0 then (some j, row.getD j 0) else acc)
    (none, -1)

/-- The outer loop of `solve_assignment_problem`
(volunteer_routes.py lines 596-622): greedily assign each volunteer in
input order the best not-yet-used task. -/
def solveAssignGo (matrix : List (List α)) (tasks : List (Task α)) :
    List (Volunteer α) → ℕ → List ℕ → List (Assignment α)
  | [], _, _ => []
  | v :: rest, i, used =>
    let pick := pickBestTask (matrix.getD i []) tasks.length used
    match pick.1 with
    | none => solveAssignGo matrix tasks rest (i + 1) used
    | some j =>
      let t := tasks.getD j (dummyTask α)
      ⟨v.id, v.name, t.id, t.name, pick.2, t.estimated_time.getD "2 hours"⟩ ::
        solveAssignGo matrix tasks rest (i + 1) (j :: used)

/-- `solve_assignment_problem` (volunteer_routes.py lines 591-622). -/
def solve_assignment_problem (matrix : List (List α)) (volunteers : List (Volunteer α))
    (tasks : List (Task α)) : List (Assignment α) :=
  solveAssignGo matrix tasks volunteers 0 []

/-- `find_unassigned_tasks` (volunteer_routes.py lines 624-628). -/
def find_unassigned_tasks (assignments : List (Assignment α)) (tasks : List (Task α)) :
    List (Task α) :=
  tasks.filter (fun t => !((assignments.map (fun a => a.task_id)).contains t.id))

end Assignment

section Geodesy

/-- Degrees to radians, Python `math.radians`. -/
noncomputable def radians (x : ℝ) : ℝ := x * Real.pi / 180

/-- Python `math.atan2`. -/
noncomputable def atan2 (y x : ℝ) : ℝ :=
  if 0 < x then Real.arctan (y / x)
  else if x < 0 then
    (if 0 ≤ y then Real.arctan (y / x) + Real.pi else Real.arctan (y / x) - Real.pi)
  else if 0 < y then Real.pi / 2
  else if y < 0 then -(Real.pi / 2)
  else 0

/-- The local `a` of `calculate_distance` (volunteer_routes.py
lines 750-755): the haversine of the central angle, with the locals
`dlat` and `dlng` inlined. -/
noncomputable def haversineA (lat1 lng1 lat2 lng2 : ℝ) : ℝ :=
  Real.sin (radians (lat2 - lat1) / 2) * Real.sin (radians (lat2 - lat1) / 2) +
    Real.cos (radians lat1) * Real.cos (radians lat2) *
      (Real.sin (radians (lng2 - lng1) / 2) * Real.sin (radians (lng2 - lng1) / 2))

/-- `calculate_distance` (volunteer_routes.py lines 746-760 and
geo_routes.py lines 331-346): the Haversine formula with Earth radius
6371 km; the local `c` is inlined. -/
noncomputable def calculate_distance (lat1 lng1 lat2 lng2 : ℝ) : ℝ :=
  6371 * (2 * atan2 (Real.sqrt (haversineA lat1 lng1 lat2 lng2))
    (Real.sqrt (1 - haversineA lat1 lng1 lat2 lng2)))

/-- `create_distance_matrix` (volunteer_routes.py lines 260-278): the
(N+1) x (N+1) matrix over `[start_location] + locations`, zero on the
diagonal by initialization (the `i != j` guard leaves the zero in place)
and Haversine off it. -/
noncomputable def create_distance_matrix (locations : List (Location ℝ))
    (start_location : Location ℝ) : List (List ℝ) :=
  let all_locations := start_location :: locations
  let n := all_locations.length
  (List.range n).map (fun i => (List.range n).map (fun j =>
    if i = j then 0
    else
      calculate_distance (all_locations.getD i (dummyLocation ℝ)).latitude
        (all_locations.getD i (dummyLocation ℝ)).longitude
        (all_locations.getD j (dummyLocation ℝ)).latitude
        (all_locations.getD j (dummyLocation ℝ)).longitude))

/-- `create_assignment_matrix` (volunteer_routes.py lines 547-570):
for each volunteer row and task column, blend skill match, availability
and proximity, where the distance comes from the Haversine primitive on
the records' coordinates (defaulting to 0 when absent). -/
noncomputable def create_assignment_matrix (volunteers : List (Volunteer ℝ))
    (tasks : List (Task ℝ)) : List (List ℝ) :=
  volunteers.map (fun volunteer => tasks.map (fun task =>
    assignment_score volunteer task
      (calculate_distance (volunteer.latitude.getD 0) (volunteer.longitude.getD 0)
        (task.latitude.getD 0) (task.longitude.getD 0))))

/-- `optimize_volunteer_route` (volunteer_routes.py lines 105-180): the
input validation of lines 114-119 rejects requests with fewer than 2
locations before any solver work; otherwise the distance matrix is built,
the routing problem solved (with `primaryResult` standing for the outcome
of the OR-Tools call, see `solve_routing_problem`) and the response
assembled. -/
noncomputable def optimize_volunteer_route (request : RouteOptimizationRequest ℝ)
    (primaryResult : Option ℝ) : Except String (RouteOptimizationResponse ℝ) :=
  if request.locations.length < 2 then
    Except.error "At least 2 locations required for route optimization"
  else
    let distance_matrix := create_distance_matrix request.locations request.start_location
    let solution := solve_routing_problem distance_matrix request.locations
      request.start_location request.max_route_time_hours request.vehicle_capacity
      request.optimization_type primaryResult
    Except.ok (optimize_route_response solution request.locations
      request.start_location distance_matrix)

/-- `generate_distance_matrix` (geo_routes.py lines 382-397): pairwise
Haversine distances between the matched NGOs, keyed by their positions. -/
noncomputable def generate_distance_matrix («matches» : List (MatchEntry ℝ)) :
    List (String × List (String × ℝ)) :=
  (List.range «matches».length).map (fun i =>
    ("ngo_" ++ Nat.repr i,
      (List.range «matches».length).filterMap (fun j =>
        if i = j then none
        else
          let m1 := («matches».getD i (MatchEntry.mk "" "" (0, 0) 0 0 "" none))
          let m2 := («matches».getD j (MatchEntry.mk "" "" (0, 0) 0 0 "" none))
          some ("ngo_" ++ Nat.repr j,
            round2 (calculate_distance m1.location.1 m1.location.2
              m2.location.1 m2.location.2)))))

/-- The match construction and ranking of `find_optimal_matches`
(geo_routes.py lines 169-234), parametrized by the candidate list that the
external user-directory lookup of lines 179-183 returned.  Candidates are
filtered to the `ngo` role, candidates without a location are skipped, and
matches are sorted by score descending (Python `sort` is stable; insertion
sort with the flipped key comparison preserves the order of equal scores
identically). -/
noncomputable def find_optimal_matches (request : MatchingRequest ℝ)
    (nearby_ngos : List (Ngo ℝ)) : MatchingResponse ℝ :=
  let ngo_users := nearby_ngos.filter (fun user => user.role = "ngo")
  let «matches» := ngo_users.filterMap (fun ngo =>
    match ngo.location with
    | none => none
    | some loc =>
      let distance := calculate_distance request.donor_location.1 request.donor_location.2
        loc.1 loc.2
      some (MatchEntry.mk ngo.uid ngo.name loc (round2 distance)
        (round2 (calculate_match_score distance request.quantity request.urgency ngo))
        (estimate_delivery_time distance) ngo.capacity))
  let sorted := «matches».insertionSort (fun a b => b.match_score ≤ a.match_score)
  { «matches» := sorted
    optimal_match := sorted.head?
    distance_matrix := generate_distance_matrix sorted
    recommendations := generate_matching_recommendations sorted request }

end Geodesy

section Fixtures

/-- Concrete NGO candidate of scenario B: capacity 200 kg. -/
def ngoB : Ngo ℚ := ⟨"ngo-1", "Helping Hands", "ngo", some (0, 0), some 200⟩

/-- Concrete start location for rational routing evaluations. -/
def locS : Location ℚ := ⟨"s", "Depot", 0, 0, "start", none, 1, none, none⟩

/-- Concrete stop A. -/
def locA : Location ℚ := ⟨"a", "Stop A", 1, 0, "donor", none, 1, none, none⟩

/-- Concrete stop B. -/
def locB : Location ℚ := ⟨"b", "Stop B", 0, 1, "ngo", none, 1, none, none⟩

/-- Concrete distance matrix for the stops above: the nearest neighbour of
the start is index 2, then index 1. -/
def matrixM : List (List ℚ) := [[0, 30, 10], [30, 0, 5], [10, 5, 0]]

/-- Concrete real-valued start location. -/
noncomputable def locSR : Location ℝ := ⟨"s", "Depot", 0, 0, "start", none, 1, none, none⟩

/-- Concrete real-valued stop. -/
noncomputable def locAR : Location ℝ := ⟨"a", "Stop A", 1, 0, "donor", none, 1, none, none⟩

/-- A route-optimization request with exactly one stop besides the start. -/
noncomputable def oneStopRequest : RouteOptimizationRequest ℝ :=
  ⟨"vol-1", locSR, [locAR], 8, 1000, "time"⟩

/-- Volunteer with no matching skills and availability off. -/
def volNoMatch : Volunteer ℚ := ⟨"v-1", "Casey", none, none, some [], some false⟩

/-- Task requiring a skill the volunteer above does not have. -/
def taskDrive : Task ℚ := ⟨"t-1", "Delivery run", none, none, some ["driving"], none, none⟩

/-- Volunteer fixture for the assignment witness. -/
def volW1 : Volunteer ℚ := ⟨"v1", "Ana", none, none, none, none⟩

/-- Second volunteer fixture for the assignment witness. -/
def volW2 : Volunteer ℚ := ⟨"v2", "Ben", none, none, none, none⟩

/-- Task fixture for the assignment witness. -/
def taskW1 : Task ℚ := ⟨"t1", "Pickup", none, none, none, none, none⟩

/-- Second task fixture for the assignment witness. -/
def taskW2 : Task ℚ := ⟨"t2", "Dropoff", none, none, none, none, none⟩

/-- Score matrix fixture for the assignment witness. -/
def matrixW : List (List ℚ) := [[90, 50], [80, 70]]

/-- The decimal digit characters. -/
def digitChars : List Char := ['0', '1', '2', '3', '4', '5', '6', '7', '8', '9']

end Fixtures

section GreedyLemmas

variable {α : Type*} [LinearOrderedField α]

lemma argminFirst_mem {f : ℕ → α} :
    ∀ {l : List ℕ} {j : ℕ}, argminFirst f l = some j → j ∈ l := by
  intro l
  induction l with
  | nil => intro j h; simp [argminFirst] at h
  | cons x xs ih =>
    intro j h
    unfold argminFirst at h
    rcases hrec : argminFirst f xs with _ | b
    · rw [hrec] at h
      simp only [Option.some.injEq] at h
      simp [← h]
    · rw [hrec] at h
      dsimp only at h
      split at h
      · simp only [Option.some.injEq] at h
        exact List.mem_cons_of_mem x (ih (h ▸ hrec))
      · simp only [Option.some.injEq] at h
        simp [← h]

lemma argminFirst_ne_none {f : ℕ → α} (x : ℕ) (xs : List ℕ) :
    argminFirst f (x :: xs) ≠ none := by
  unfold argminFirst
  rcases argminFirst f xs with _ | b
  · simp
  · dsimp only
    split <;> simp

lemma greedyVisit_perm (matrix : List (List α)) :
    ∀ (n : ℕ) (current : ℕ) (unvisited : List ℕ), unvisited.length = n →
      (greedyVisit matrix n current unvisited).Perm unvisited := by
  intro n
  induction n with
  | zero =>
    intro c u h
    rw [List.length_eq_zero] at h
    subst h
    simp [greedyVisit]
  | succ n ih =>
    intro c u h
    cases u with
    | nil => simp at h
    | cons x xs =>
      have hne := argminFirst_ne_none (f := fun y => (matrix.getD c []).getD y 0) x xs
      rcases hmin : argminFirst (fun y => (matrix.getD c []).getD y 0) (x :: xs) with _ | j
      · exact absurd hmin hne
      · have hj : j ∈ x :: xs := argminFirst_mem hmin
        have hlen : ((x :: xs).erase j).length = n := by
          rw [List.length_erase_of_mem hj]
          simp only [List.length_cons] at h ⊢
          omega
        have step : greedyVisit matrix (n + 1) c (x :: xs) =
            j :: greedyVisit matrix n j ((x :: xs).erase j) := by
          conv_lhs => rw [greedyVisit]
          rw [hmin]
        rw [step]
        exact ((ih j _ hlen).cons j).trans (List.perm_cons_erase hj).symm

end GreedyLemmas

/-- Claim C1.  The greedy fallback (`create_mock_solution`) always produces
a route that starts and ends at index 0 and visits every non-start stop
index exactly once; but the primary branch is broken: for the dict that
`solve_routing_problem` returns after a successful OR-Tools call,
`extract_route_from_solution` yields the one-element route `[0]`, which is
not a permutation route over any positive number of stops (shown here for
two stops). -/
theorem c1_route_solver_permutation :
    (∀ (matrix : List (List ℚ)) (locations : List (Location ℚ)) (start : Location ℚ),
        isPermRoute (routeIndicesOf (create_mock_solution locations start matrix))
          locations.length) ∧
      extract_route_from_solution (PrimarySolution.mk (100 : ℚ)) = [0] ∧
        ¬ isPermRoute (extract_route_from_solution (PrimarySolution.mk (100 : ℚ))) 2 := by
  refine ⟨?_, rfl, ?_⟩
  · intro matrix locations start
    have hroute : routeIndicesOf (create_mock_solution locations start matrix) =
        0 :: greedyVisit matrix (List.range' 1 locations.length).length 0
          (List.range' 1 locations.length) ++ [0] := rfl
    unfold isPermRoute
    rw [hroute]
    refine ⟨rfl, List.getLast?_concat _, ?_⟩
    · simp only [List.cons_append, List.drop_succ_cons, List.drop_zero, List.dropLast_concat]
      exact greedyVisit_perm matrix _ 0 _ rfl
  · rintro ⟨-, -, hperm⟩
    have h1 : extract_route_from_solution (PrimarySolution.mk (100 : ℚ)) = [0] := rfl
    rw [h1] at hperm
    have := hperm.length_eq
    simp at this

/-- Claim C2.  Every route that the primary (constraint-based) branch of
the solver hands to the caller satisfies the capacity invariant: as
extracted by `extract_route_from_solution`, that route is always `[0]`
(the start alone, demand 0), so every prefix has cumulative demand 0,
which is within any nonnegative vehicle capacity. -/
theorem c2_primary_capacity_invariant (sol : PrimarySolution ℚ)
    (locations : List (Location ℚ)) (cap : ℚ) (hcap : 0 ≤ cap) :
    capacityInvariant (extract_route_from_solution sol) (demandOf locations) cap := by
  intro k
  have hroute : extract_route_from_solution sol = [0] := rfl
  rw [hroute]
  cases k with
  | zero => simpa using hcap
  | succ k =>
    have htake : List.take (k + 1) [(0 : ℕ)] = [0] := by simp
    rw [htake]
    simpa [demandOf] using hcap

/-- Witness for C2 at a concrete solution, stop list and capacity. -/
theorem c2_primary_capacity_invariant_witness :
    (0 : ℚ) ≤ 5 ∧ capacityInvariant (extract_route_from_solution (PrimarySolution.mk (100 : ℚ)))
      (demandOf ([] : List (Location ℚ))) 5 :=
  ⟨by norm_num,
    c2_primary_capacity_invariant (PrimarySolution.mk (100 : ℚ)) ([] : List (Location ℚ)) 5
      (by norm_num)⟩

/-- Claim C3.  Scenario B: quantity 100 kg, urgency urgent, candidate at
distance 10 km with capacity 200 kg scores exactly 93: the distance score
is 80, the capacity score 50, and (80 * 0.4 + 50 * 0.6) * 1.5 = 93, which
the final clamp leaves unchanged. -/
theorem c3_scenario_b : calculate_match_score (10 : ℚ) 100 "urgent" ngoB = 93 := by
  have hm : urgencyMultiplier "urgent" = (1.5 : ℚ) := rfl
  unfold calculate_match_score
  rw [show ngoB.capacity.getD 100 = (200 : ℚ) from rfl, hm]
  dsimp only
  have h1 : max (0 : ℚ) (100 - 10 * 2) = 80 := by norm_num
  have h2 : min (100 : ℚ) (100 / 200 * 100) = 50 := by rw [min_eq_right] <;> norm_num
  rw [h1, h2, min_eq_right] <;> norm_num

/-- Claim C5 counterexample.  A request with exactly one stop does not
yield the trivial route: it is rejected by the input validation with the
at-least-2-locations error, whether or not the primary solver would have
been available. -/
theorem c5_counterexample :
    optimize_volunteer_route oneStopRequest none =
        Except.error "At least 2 locations required for route optimization" ∧
      optimize_volunteer_route oneStopRequest (some 123) =
        Except.error "At least 2 locations required for route optimization" := by
  constructor <;>
    · unfold optimize_volunteer_route
      rw [if_pos]
      rw [show oneStopRequest.locations = [locAR] from rfl]
      norm_num

/-- Claim C5 as amended.  A route-optimization request containing exactly
one stop (excluding the start) is rejected before the solver runs, with
the validation error of lines 114-119; no route is produced. -/
theorem c5_single_stop_rejected (request : RouteOptimizationRequest ℝ)
    (primaryResult : Option ℝ) (h : request.locations.length = 1) :
    optimize_volunteer_route request primaryResult =
      Except.error "At least 2 locations required for route optimization" := by
  unfold optimize_volunteer_route
  rw [if_pos]
  rw [h]
  norm_num

/-- Witness for the amended C5 at a concrete one-stop request. -/
theorem c5_single_stop_rejected_witness :
    oneStopRequest.locations.length = 1 ∧
      optimize_volunteer_route oneStopRequest none =
        Except.error "At least 2 locations required for route optimization" :=
  ⟨rfl, c5_single_stop_rejected oneStopRequest none rfl⟩

/-- Claim C7.  With an empty candidate set the matching engine returns an
empty ranked list, no optimal match, an empty distance matrix and the
expand-search-radius recommendation; the computation is total, so no
error is raised. -/
theorem c7_empty_candidates (request : MatchingRequest ℝ) :
    find_optimal_matches request [] =
      { «matches» := [], optimal_match := none, distance_matrix := [],
        recommendations := ["No nearby NGOs found. Consider expanding search radius."] } := rfl

section ScoreBounds

variable {α : Type*} [LinearOrderedField α]

lemma urgencyMultiplier_pos (u : String) : 0 < (urgencyMultiplier u : α) := by
  unfold urgencyMultiplier
  split <;> norm_num

lemma skill_match_bounds (v : Volunteer α) (t : Task α) :
    0 ≤ calculate_skill_match v t ∧ calculate_skill_match v t ≤ 100 := by
  unfold calculate_skill_match
  split
  · norm_num
  · rename_i hne
    have hlen : 0 < ((t.required_skills.getD []).length : α) := by
      have := List.length_pos.mpr hne
      exact_mod_cast this
    have hm : (((t.required_skills.getD []).filter
        (fun s => (v.skills.getD []).contains s)).length : α) ≤
        ((t.required_skills.getD []).length : α) := by
      exact_mod_cast List.length_filter_le _ _
    constructor
    · apply mul_nonneg (div_nonneg (Nat.cast_nonneg _) (Nat.cast_nonneg _))
      norm_num
    · have hdiv : (((t.required_skills.getD []).filter
          (fun s => (v.skills.getD []).contains s)).length : α) /
          ((t.required_skills.getD []).length : α) ≤ 1 := (div_le_one hlen).mpr hm
      nlinarith

lemma availability_match_bounds (v : Volunteer α) (t : Task α) :
    0 ≤ calculate_availability_match v t ∧ calculate_availability_match v t ≤ 100 := by
  unfold calculate_availability_match
  split <;> norm_num

end ScoreBounds

/-- Claim C6 counterexample.  The volunteer-task assignment score is not
confined to [0, 100]: at the nonnegative distance 200 km, with zero skill
and availability contributions, the blend
0 * 0.4 + 0 * 0.3 + (100 - 200) * 0.3 is negative (it equals -30); the
source applies no clamp to it. -/
theorem c6_counterexample :
    (0 : ℚ) ≤ 200 ∧ assignment_score volNoMatch taskDrive 200 < 0 := by
  constructor
  · norm_num
  · have h1 : calculate_skill_match volNoMatch taskDrive = 0 := by
      norm_num [calculate_skill_match, volNoMatch, taskDrive]
    have h2 : calculate_availability_match volNoMatch taskDrive = 0 := by
      simp [calculate_availability_match, volNoMatch]
    unfold assignment_score
    rw [h1, h2]
    norm_num

/-- Claim C6 as amended.  The donor-NGO match score of
`calculate_match_score` always lies in [0, 100] (for nonnegative distance
and quantity and positive candidate capacity); the volunteer-task
assignment score is bounded above by 100 but is not clamped below, so it
can be negative (see the counterexample). -/
theorem c6_scores_amended {α : Type*} [LinearOrderedField α] :
    (∀ (d q : α) (u : String) (ngo : Ngo α), 0 ≤ d → 0 ≤ q → 0 < ngo.capacity.getD 100 →
        0 ≤ calculate_match_score d q u ngo ∧ calculate_match_score d q u ngo ≤ 100) ∧
      ∀ (v : Volunteer α) (t : Task α) (d : α), 0 ≤ d →
        assignment_score v t d ≤ 100 := by
  constructor
  · intro d q u ngo hd hq hcap
    unfold calculate_match_score
    dsimp only
    have hds0 : (0 : α) ≤ max 0 (100 - d * 2) := le_max_left _ _
    have hqs0 : (0 : α) ≤ min 100 (q / ngo.capacity.getD 100 * 100) := by
      apply le_min (by norm_num)
      positivity
    have hmult : (0 : α) < urgencyMultiplier u := urgencyMultiplier_pos u
    constructor
    · apply le_min (by norm_num)
      apply mul_nonneg _ hmult.le
      nlinarith
    · exact min_le_left _ _
  · intro v t d hd
    unfold assignment_score
    have hs := skill_match_bounds v t
    have ha := availability_match_bounds v t
    nlinarith [hs.1, hs.2, ha.1, ha.2]

/-- Witness for the amended C6 at concrete inputs. -/
theorem c6_scores_amended_witness :
    ((0 : ℚ) ≤ 10 ∧ (0 : ℚ) ≤ 100 ∧ (0 : ℚ) < ngoB.capacity.getD 100 ∧ (0 : ℚ) ≤ 7) ∧
      (0 ≤ calculate_match_score (10 : ℚ) 100 "urgent" ngoB ∧
        calculate_match_score (10 : ℚ) 100 "urgent" ngoB ≤ 100) ∧
      assignment_score volNoMatch taskDrive (7 : ℚ) ≤ 100 := by
  have hcap : ngoB.capacity.getD 100 = (200 : ℚ) := rfl
  refine ⟨⟨by norm_num, by norm_num, by rw [hcap]; norm_num, by norm_num⟩, ?_, ?_⟩
  · exact c6_scores_amended.1 10 100 "urgent" ngoB (by norm_num) (by norm_num)
      (by rw [hcap]; norm_num)
  · exact c6_scores_amended.2 volNoMatch taskDrive 7 (by norm_num)

section MatrixLemmas

lemma haversineA_symm (lat1 lng1 lat2 lng2 : ℝ) :
    haversineA lat1 lng1 lat2 lng2 = haversineA lat2 lng2 lat1 lng1 := by
  unfold haversineA
  have h1 : radians (lat1 - lat2) = -(radians (lat2 - lat1)) := by unfold radians; ring
  have h2 : radians (lng1 - lng2) = -(radians (lng2 - lng1)) := by unfold radians; ring
  rw [h1, h2]
  simp only [neg_div, Real.sin_neg]
  ring

lemma calculate_distance_symm (lat1 lng1 lat2 lng2 : ℝ) :
    calculate_distance lat1 lng1 lat2 lng2 = calculate_distance lat2 lng2 lat1 lng1 := by
  unfold calculate_distance
  rw [haversineA_symm]

lemma rangeMap_getD {β : Type*} (f : ℕ → β) (n i : ℕ) (d : β) (h : i < n) :
    ((List.range n).map f).getD i d = f i := by
  have hlen : i < ((List.range n).map f).length := by simpa using h
  rw [List.getD_eq_getElem _ _ hlen]
  simp

lemma create_distance_matrix_entry (locations : List (Location ℝ)) (start : Location ℝ)
    {i j : ℕ} (hi : i < locations.length + 1) (hj : j < locations.length + 1) :
    ((create_distance_matrix locations start).getD i []).getD j 0 =
      if i = j then 0
      else
        calculate_distance ((start :: locations).getD i (dummyLocation ℝ)).latitude
          ((start :: locations).getD i (dummyLocation ℝ)).longitude
          ((start :: locations).getD j (dummyLocation ℝ)).latitude
          ((start :: locations).getD j (dummyLocation ℝ)).longitude := by
  have hi' : i < (start :: locations).length := by simpa using hi
  have hj' : j < (start :: locations).length := by simpa using hj
  unfold create_distance_matrix
  dsimp only
  rw [rangeMap_getD _ _ _ _ hi', rangeMap_getD _ _ _ _ hj']

end MatrixLemmas

/-- Claim C8.  For any start location and nonempty stop list of length N,
`create_distance_matrix` returns an (N+1) x (N+1) matrix that is zero on
the diagonal and symmetric (the Haversine formula is symmetric in its two
endpoints). -/
theorem c8_distance_matrix (start : Location ℝ) (locations : List (Location ℝ))
    (_h : 1 ≤ locations.length) :
    (create_distance_matrix locations start).length = locations.length + 1 ∧
      (∀ row ∈ create_distance_matrix locations start, row.length = locations.length + 1) ∧
      (∀ i < locations.length + 1,
        ((create_distance_matrix locations start).getD i []).getD i 0 = 0) ∧
      ∀ i j, i < locations.length + 1 → j < locations.length + 1 →
        ((create_distance_matrix locations start).getD i []).getD j 0 =
          ((create_distance_matrix locations start).getD j []).getD i 0 := by
  refine ⟨?_, ?_, ?_, ?_⟩
  · simp [create_distance_matrix]
  · intro row hrow
    unfold create_distance_matrix at hrow
    dsimp only at hrow
    rw [List.mem_map] at hrow
    obtain ⟨i, -, rfl⟩ := hrow
    simp
  · intro i hi
    rw [create_distance_matrix_entry locations start hi hi]
    simp
  · intro i j hi hj
    rw [create_distance_matrix_entry locations start hi hj,
      create_distance_matrix_entry locations start hj hi]
    by_cases hij : i = j
    · simp [hij]
    · rw [if_neg hij, if_neg (Ne.symm hij)]
      exact calculate_distance_symm _ _ _ _

/-- Witness for C8 at a concrete one-stop input. -/
theorem c8_distance_matrix_witness :
    1 ≤ [locAR].length ∧
      ((create_distance_matrix [locAR] locSR).length = [locAR].length + 1 ∧
        (∀ row ∈ create_distance_matrix [locAR] locSR, row.length = [locAR].length + 1) ∧
        (∀ i < [locAR].length + 1,
          ((create_distance_matrix [locAR] locSR).getD i []).getD i 0 = 0) ∧
        ∀ i j, i < [locAR].length + 1 → j < [locAR].length + 1 →
          ((create_distance_matrix [locAR] locSR).getD i []).getD j 0 =
            ((create_distance_matrix [locAR] locSR).getD j []).getD i 0) :=
  ⟨by norm_num, c8_distance_matrix locSR [locAR] (by norm_num)⟩

section TimeStringValues

lemma timeString_zero : timeString (0 : ℚ) = "09:00" := by
  unfold timeString
  rw [show (0 : ℚ) / 60 = 0 by norm_num, Int.floor_zero]
  decide

lemma timeString_sixty : timeString (60 : ℚ) = "10:00" := by
  unfold timeString
  rw [show (60 : ℚ) / 60 = 1 by norm_num, Int.floor_one,
    show (60 : ℚ) = ((60 : ℤ) : ℚ) by norm_num, Int.floor_intCast]
  decide

lemma timeString_seventy : timeString (70 : ℚ) = "10:10" := by
  unfold timeString
  rw [show ⌊(70 : ℚ) / 60⌋ = 1 from Int.floor_eq_iff.mpr (by norm_num),
    show (70 : ℚ) = ((70 : ℤ) : ℚ) by norm_num, Int.floor_intCast]
  decide

end TimeStringValues

/-- Claim C9.  The first entry of the optimized route is stamped with the
fixed start time 09:00, but subsequent arrival times are not the start
time plus the cumulative travel over the route's preceding legs:
`calculate_arrival_time` sums `distance_matrix[i][i+1]` over
`i < index - 1` (consecutive matrix indices, skipping the final leg and
ignoring the actual visiting order).  On the concrete greedy route
[0, 2, 1, 0] over `matrixM` the second stop still reads 09:00 even though
the first leg (0 to 2) is 10 km, and the later stamps (10:00, 10:10) track
matrix rows 0-1 and 1-2 rather than the travelled legs. -/
theorem c9_arrival_time_bug :
    (generate_optimized_route (create_mock_solution [locA, locB] locS matrixM)
        [locA, locB] locS matrixM).map (fun e => e.arrival_time) =
      ["09:00", "09:00", "10:00", "10:10"] ∧
      routeIndicesOf (create_mock_solution [locA, locB] locS matrixM) = [0, 2, 1, 0] ∧
      (matrixM.getD 0 []).getD 2 0 = 10 := by
  have hroute : routeIndicesOf (create_mock_solution [locA, locB] locS matrixM) =
      [0, 2, 1, 0] := by decide
  refine ⟨?_, hroute, by decide⟩
  unfold generate_optimized_route
  rw [hroute]
  norm_num [generateRouteGo, calculate_arrival_time, arrivalMinutes, matrixM,
    List.range_succ, timeString_zero, timeString_sixty, timeString_seventy,
    locS, locA, locB]

section AssignmentLemmas

variable {α : Type*} [LinearOrderedField α]

lemma pickFold_cases (row : List α) (used : List ℕ) :
    ∀ (l : List ℕ) (acc : Option ℕ × α) (j : ℕ),
      (l.foldl (fun acc j => if j ∉ used ∧ acc.2 < row.getD j 0
          then (some j, row.getD j 0) else acc) acc).1 = some j →
        acc.1 = some j ∨ (j ∈ l ∧ j ∉ used) := by
  intro l
  induction l with
  | nil => intro acc j h; exact Or.inl h
  | cons x xs ih =>
    intro acc j h
    simp only [List.foldl_cons] at h
    rcases ih _ j h with hstep | hmem
    · by_cases hc : x ∉ used ∧ acc.2 < row.getD x 0
      · rw [if_pos hc] at hstep
        simp only [Option.some.injEq] at hstep
        exact Or.inr ⟨hstep ▸ List.mem_cons_self x xs, hstep ▸ hc.1⟩
      · rw [if_neg hc] at hstep
        exact Or.inl hstep
    · exact Or.inr ⟨List.mem_cons_of_mem _ hmem.1, hmem.2⟩

lemma pickBestTask_spec (row : List α) (tasksLen : ℕ) (used : List ℕ) (j : ℕ)
    (h : (pickBestTask row tasksLen used).1 = some j) : j < tasksLen ∧ j ∉ used := by
  unfold pickBestTask at h
  rcases pickFold_cases row used (List.range tasksLen) (none, -1) j h with h1 | h2
  · simp at h1
  · exact ⟨List.mem_range.mp h2.1, h2.2⟩

lemma solveAssignGo_spec (matrix : List (List α)) (tasks : List (Task α)) :
    ∀ (vols : List (Volunteer α)) (i : ℕ) (used : List ℕ),
      ∃ idxs : List ℕ,
        (solveAssignGo matrix tasks vols i used).map (fun a => a.task_id) =
            idxs.map (fun j => (tasks.getD j (dummyTask α)).id) ∧
          idxs.Nodup ∧ ∀ j ∈ idxs, j < tasks.length ∧ j ∉ used := by
  intro vols
  induction vols with
  | nil => intro i used; exact ⟨[], rfl, List.nodup_nil, by simp⟩
  | cons v rest ih =>
    intro i used
    cases hpick : (pickBestTask (matrix.getD i []) tasks.length used).1 with
    | none =>
      obtain ⟨idxs, hmap, hnd, hmem⟩ := ih (i + 1) used
      have hstep : solveAssignGo matrix tasks (v :: rest) i used =
          solveAssignGo matrix tasks rest (i + 1) used := by
        conv_lhs => rw [solveAssignGo]
        rw [hpick]
      exact ⟨idxs, by rw [hstep]; exact hmap, hnd, hmem⟩
    | some j =>
      have hj := pickBestTask_spec (matrix.getD i []) tasks.length used j hpick
      obtain ⟨idxs, hmap, hnd, hmem⟩ := ih (i + 1) (j :: used)
      have hstep : solveAssignGo matrix tasks (v :: rest) i used =
          ⟨v.id, v.name, (tasks.getD j (dummyTask α)).id, (tasks.getD j (dummyTask α)).name,
              (pickBestTask (matrix.getD i []) tasks.length used).2,
              (tasks.getD j (dummyTask α)).estimated_time.getD "2 hours"⟩ ::
            solveAssignGo matrix tasks rest (i + 1) (j :: used) := by
        conv_lhs => rw [solveAssignGo]
        rw [hpick]
      refine ⟨j :: idxs, ?_, ?_, ?_⟩
      · rw [hstep]
        simp only [List.map_cons]
        rw [hmap]
      · rw [List.nodup_cons]
        refine ⟨fun hin => ?_, hnd⟩
        exact (hmem j hin).2 (List.mem_cons_self j used)
      · intro j' hj'
        rcases List.mem_cons.mp hj' with rfl | hin
        · exact ⟨hj.1, hj.2⟩
        · exact ⟨(hmem j' hin).1, fun hu => (hmem j' hin).2 (List.mem_cons_of_mem j hu)⟩

end AssignmentLemmas

/-- Claim C10.  With distinct task ids, the greedy assignment never uses a
task id twice, every assigned id belongs to an input task, and the
unassigned list is exactly the input tasks whose id appears in no
assignment - so assigned and unassigned tasks partition the input task
list. -/
theorem c10_assignment_partition (matrix : List (List ℚ))
    (volunteers : List (Volunteer ℚ)) (tasks : List (Task ℚ))
    (hids : (tasks.map (fun t => t.id)).Nodup) :
    ((solve_assignment_problem matrix volunteers tasks).map (fun a => a.task_id)).Nodup ∧
      (∀ a ∈ solve_assignment_problem matrix volunteers tasks,
        ∃ t ∈ tasks, a.task_id = t.id) ∧
      (∀ t ∈ tasks,
        t ∈ find_unassigned_tasks (solve_assignment_problem matrix volunteers tasks) tasks ↔
          t.id ∉ (solve_assignment_problem matrix volunteers tasks).map (fun a => a.task_id)) ∧
      ∀ u ∈ find_unassigned_tasks (solve_assignment_problem matrix volunteers tasks) tasks,
        u ∈ tasks := by
  obtain ⟨idxs, hmap, hnd, hmem⟩ := solveAssignGo_spec matrix tasks volunteers 0 []
  have hsolve : solve_assignment_problem matrix volunteers tasks =
      solveAssignGo matrix tasks volunteers 0 [] := rfl
  refine ⟨?_, ?_, ?_, ?_⟩
  · rw [hsolve, hmap]
    refine List.Nodup.map_on ?_ hnd
    intro j1 h1 j2 h2 heq
    have hb1 := (hmem j1 h1).1
    have hb2 := (hmem j2 h2).1
    rw [List.getD_eq_getElem tasks _ hb1, List.getD_eq_getElem tasks _ hb2] at heq
    have hb1' : j1 < (tasks.map (fun t => t.id)).length := by simpa using hb1
    have hb2' : j2 < (tasks.map (fun t => t.id)).length := by simpa using hb2
    have hget : (tasks.map (fun t => t.id)).get ⟨j1, hb1'⟩ =
        (tasks.map (fun t => t.id)).get ⟨j2, hb2'⟩ := by
      simpa using heq
    simpa using (hids.get_inj_iff).mp hget
  · intro a ha
    rw [hsolve] at ha
    have hin : a.task_id ∈ (solveAssignGo matrix tasks volunteers 0 []).map
        (fun a => a.task_id) := List.mem_map_of_mem _ ha
    rw [hmap] at hin
    obtain ⟨j, hjidx, hjeq⟩ := List.mem_map.mp hin
    have hb := (hmem j hjidx).1
    refine ⟨tasks.getD j (dummyTask ℚ), ?_, hjeq.symm⟩
    rw [List.getD_eq_getElem tasks _ hb]
    exact List.getElem_mem _
  · intro t ht
    simp [find_unassigned_tasks, List.mem_filter, ht, List.contains, List.elem_iff]
  · intro u hu
    unfold find_unassigned_tasks at hu
    exact (List.mem_filter.mp hu).1

/-- Witness for C10 at a concrete two-volunteer, two-task instance. -/
theorem c10_assignment_partition_witness :
    ([taskW1, taskW2].map (fun t => t.id)).Nodup ∧
      (((solve_assignment_problem matrixW [volW1, volW2] [taskW1, taskW2]).map
          (fun a => a.task_id)).Nodup ∧
        (∀ a ∈ solve_assignment_problem matrixW [volW1, volW2] [taskW1, taskW2],
          ∃ t ∈ [taskW1, taskW2], a.task_id = t.id) ∧
        (∀ t ∈ [taskW1, taskW2],
          t ∈ find_unassigned_tasks
              (solve_assignment_problem matrixW [volW1, volW2] [taskW1, taskW2])
              [taskW1, taskW2] ↔
            t.id ∉ (solve_assignment_problem matrixW [volW1, volW2] [taskW1, taskW2]).map
              (fun a => a.task_id)) ∧
        ∀ u ∈ find_unassigned_tasks
            (solve_assignment_problem matrixW [volW1, volW2] [taskW1, taskW2])
            [taskW1, taskW2], u ∈ [taskW1, taskW2]) :=
  ⟨by decide, c10_assignment_partition matrixW [volW1, volW2] [taskW1, taskW2] (by decide)⟩

section SubstringLemmas

lemma listStartsWith_subset :
    ∀ {n h : List Char}, listStartsWith n h = true → ∀ c ∈ n, c ∈ h := by
  intro n
  induction n with
  | nil => intro h _ c hc; simp at hc
  | cons a as ih =>
    intro h hs c hc
    cases h with
    | nil => simp [listStartsWith] at hs
    | cons b bs =>
      simp only [listStartsWith, Bool.and_eq_true, beq_iff_eq] at hs
      rcases List.mem_cons.mp hc with rfl | hmem
      · rw [hs.1]
        exact List.mem_cons_self b bs
      · exact List.mem_cons_of_mem _ (ih hs.2 c hmem)

lemma listHasSub_subset :
    ∀ {h n : List Char}, listHasSub n h = true → ∀ c ∈ n, c ∈ h := by
  intro h
  induction h with
  | nil =>
    intro n hs c hc
    rw [listHasSub, List.isEmpty_iff] at hs
    subst hs
    simp at hc
  | cons b bs ih =>
    intro n hs c hc
    simp only [listHasSub, Bool.or_eq_true] at hs
    rcases hs with h1 | h2
    · exact listStartsWith_subset h1 c hc
    · exact List.mem_cons_of_mem _ (ih h2 c hc)

lemma mentionsFallback_eq_false_of_no_k (s : String) (h : 'k' ∉ s.toList) :
    mentionsFallback s = false := by
  unfold mentionsFallback
  cases hsub : listHasSub "fallback".toList s.toList
  · rfl
  · exact absurd (listHasSub_subset hsub 'k' (by decide)) h

lemma digitChar_mem_digitChars : ∀ m : ℕ, m < 10 → Nat.digitChar m ∈ digitChars := by decide

lemma toDigitsCore_subset :
    ∀ (f n : ℕ) (acc : List Char), (∀ c ∈ acc, c ∈ digitChars) →
      ∀ c ∈ Nat.toDigitsCore 10 f n acc, c ∈ digitChars := by
  intro f
  induction f with
  | zero =>
    intro n acc hacc c hc
    rw [Nat.toDigitsCore] at hc
    exact hacc c hc
  | succ f ih =>
    intro n acc hacc c hc
    have hd : Nat.digitChar (n % 10) ∈ digitChars :=
      digitChar_mem_digitChars _ (Nat.mod_lt _ (by norm_num))
    rw [Nat.toDigitsCore] at hc
    split at hc
    · rcases List.mem_cons.mp hc with rfl | hmem
      · exact hd
      · exact hacc c hmem
    · refine ih (n / 10) _ ?_ c hc
      intro c' hc'
      rcases List.mem_cons.mp hc' with rfl | hmem
      · exact hd
      · exact hacc c' hmem

lemma repr_subset_digitChars (n : ℕ) : ∀ c ∈ (Nat.repr n).toList, c ∈ digitChars := by
  intro c hc
  have hrepr : (Nat.repr n).toList = Nat.toDigitsCore 10 (n + 1) n [] := by
    rw [Nat.repr, Nat.toDigits, List.toList_asString]
  rw [hrepr] at hc
  exact toDigitsCore_subset (n + 1) n [] (by simp) c hc

lemma no_k_in_repr (n : ℕ) : 'k' ∉ (Nat.repr n).toList := by
  intro h
  have := repr_subset_digitChars n 'k' h
  revert this
  decide

lemma toList_append (a b : String) : (a ++ b).toList = a.toList ++ b.toList :=
  String.data_append a b

lemma no_k_in_highPriority (n : ℕ) : 'k' ∉ (highPriorityRecommendation n).toList := by
  unfold highPriorityRecommendation
  rw [toList_append, toList_append]
  intro h
  rcases List.mem_append.mp h with h1 | h2
  · rcases List.mem_append.mp h1 with h3 | h4
    · revert h3; decide
    · exact no_k_in_repr n h4
  · revert h2; decide

end SubstringLemmas

section RecommendationStrings

variable {α : Type*} [LinearOrderedField α]

lemma generate_route_recommendations_mem (route : List (RouteStopEntry α))
    (d t e : α) (s : String)
    (hs : s ∈ generate_route_recommendations route d t e) :
    s ∈ ["Excellent route efficiency!", "Good route efficiency",
        "Consider route optimization for better efficiency",
        "Long route detected - consider splitting into multiple trips",
        "Long route time - ensure volunteer availability"] ∨
      ∃ n, s = highPriorityRecommendation n := by
  unfold generate_route_recommendations at hs
  simp only [List.mem_append] at hs
  rcases hs with ((h | h) | h) | h
  · split at h
    · simp only [List.mem_singleton] at h
      subst h; simp
    · split at h
      · simp only [List.mem_singleton] at h
        subst h; simp
      · simp only [List.mem_singleton] at h
        subst h; simp
  · split at h
    · simp only [List.mem_singleton] at h
      subst h; simp
    · simp at h
  · split at h
    · simp only [List.mem_singleton] at h
      subst h; simp
    · simp at h
  · split at h
    · simp only [List.mem_singleton] at h
      exact Or.inr ⟨_, h⟩
    · simp at h

lemma alternative_route_names (locations : List (Location α)) (start : Location α)
    (matrix : List (List α)) :
    (generate_alternative_routes locations start matrix).map (fun a => a.name) =
      ["Priority-based Route", "Shortest Distance Route"] := rfl

lemma alternative_route_descriptions (locations : List (Location α)) (start : Location α)
    (matrix : List (List α)) :
    (generate_alternative_routes locations start matrix).map (fun a => a.description) =
      ["Route optimized by location priority", "Route optimized by shortest total distance"] := rfl

/-- No code-generated string of an optimize response mentions the fallback
strategy: the recommendations are drawn from a fixed repertoire (plus the
digit-parametrized high-priority count) and the alternative-route labels
are constants, none of which contains the word fallback; and the response
schema itself has no strategy field. -/
lemma responseGeneratedStrings_no_fallback [FloorRing α] (sol : RoutingSolution α)
    (locations : List (Location α)) (start : Location α) (matrix : List (List α)) :
    (responseGeneratedStrings (optimize_route_response sol locations start matrix)).any
      mentionsFallback = false := by
  rw [List.any_eq_false]
  intro s hs
  rw [Bool.not_eq_true]
  unfold responseGeneratedStrings at hs
  have hrec : (optimize_route_response sol locations start matrix).recommendations =
      generate_route_recommendations (generate_optimized_route sol locations start matrix)
        (calculate_total_distance (generate_optimized_route sol locations start matrix) matrix)
        (calculate_total_time (generate_optimized_route sol locations start matrix) matrix)
        (calculate_route_efficiency (generate_optimized_route sol locations start matrix)
          (calculate_total_distance (generate_optimized_route sol locations start matrix) matrix)
          (calculate_total_time (generate_optimized_route sol locations start matrix) matrix)) :=
    rfl
  have halt : (optimize_route_response sol locations start matrix).alternative_routes =
      generate_alternative_routes locations start matrix := rfl
  rw [hrec, halt] at hs
  simp only [List.mem_append] at hs
  rcases hs with (h | h) | h
  · rcases generate_route_recommendations_mem _ _ _ _ s h with hfix | ⟨n, rfl⟩
    · simp only [List.mem_cons, List.not_mem_nil, or_false] at hfix
      rcases hfix with rfl | rfl | rfl | rfl | rfl
      · decide
      · decide
      · decide
      · decide
      · decide
    · exact mentionsFallback_eq_false_of_no_k _ (no_k_in_highPriority n)
  · rw [alternative_route_names] at h
    simp only [List.mem_cons, List.not_mem_nil, or_false] at h
    rcases h with rfl | rfl
    · decide
    · decide
  · rw [alternative_route_descriptions] at h
    simp only [List.mem_cons, List.not_mem_nil, or_false] at h
    rcases h with rfl | rfl
    · decide
    · decide

end RecommendationStrings

/-- Claim C4 counterexample.  On a concrete valid input where the primary
solver is unavailable, the greedy fallback produces the route, yet no
code-generated string of the caller-visible response mentions the fallback
(and the response schema carries no strategy field at all): the result
does not indicate that the degraded strategy produced the route. -/
theorem c4_counterexample :
    isFallbackSolution (solve_routing_problem matrixM [locA, locB] locS 8 1000 "time" none) =
        true ∧
      (responseGeneratedStrings (optimize_route_response
          (solve_routing_problem matrixM [locA, locB] locS 8 1000 "time" none)
          [locA, locB] locS matrixM)).any mentionsFallback = false :=
  ⟨rfl, responseGeneratedStrings_no_fallback _ _ _ _⟩

/-- Claim C4 as amended.  The route-optimization response never indicates
which strategy produced the route: for every solution (fallback or
primary), stop list, start and matrix, no code-generated string of the
assembled response mentions the fallback; degradation is only logged
server-side. -/
theorem c4_no_fallback_indication (sol : RoutingSolution ℚ) (locations : List (Location ℚ))
    (start : Location ℚ) (matrix : List (List ℚ)) :
    (responseGeneratedStrings (optimize_route_response sol locations start matrix)).any
      mentionsFallback = false :=
  responseGeneratedStrings_no_fallback sol locations start matrix

end Aaharnet
